import Mathlib

/-!
Shallow embedding of the two command-line utilities of the repository
(`scripts/embed_watermark.py` and `scripts/detect_watermark.py`).

Each utility is a single `main` function: it parses `sys.argv[1]` as JSON,
extracts fields, calls the external image codec (cv2) and watermark codec
(imwatermark) capabilities, prints exactly one JSON object and exits.
We model a run of a utility as a pure function from

  * the external environment (what `json.loads`, `cv2.imread`,
    `encoder.encode`, `cv2.imwrite`, `decoder.decode` return on each call), and
  * the optional positional argument `sys.argv[1]`,

to a `Run`: the list of JSON objects printed, the process exit code, and the
trace of calls made to the external capabilities (with their arguments).

Python-level behaviour that the scripts rely on is embedded explicitly:
dictionary subscription and `.get`, `bytes.fromhex`, `str.lower`,
`str.endswith`, f-string conversion, and the `int * 8` multiplication.
`sys.exit(1)` raises `SystemExit`, which is *not* an `Exception`, so the
early-exit path after a failed image read bypasses the `except` handler;
the model returns that result directly.  Every other raised exception is
caught by the single top-level `except Exception` handler, which prints
`{"status": "error", "message": str(e)}` and exits 1; exceptions are
modelled as their `str(e)` string.
-/

set_option autoImplicit false

namespace DLO

/-- JSON values as produced by `json.loads` (numbers restricted to the
integers that actually occur in this interface). -/
inductive Json where
  | str (text : String)
  | num (value : Int)
  | obj (items : List (String × Json))
  | arr (items : List Json)
  | bool (value : Bool)
  | null

/-- First match in an association list of object fields.  A dictionary
produced by `json.loads` has pairwise distinct keys, so first match agrees
with Python dictionary lookup. -/
def Json.find : List (String × Json) → String → Option Json
  | [], _ => none
  | (k, v) :: rest, key => if k = key then some v else Json.find rest key

/-- The Python type name of a decoded JSON value, as used in error texts. -/
def pyTypeName : Json → String
  | .null => "NoneType"
  | .bool _ => "bool"
  | .num _ => "int"
  | .str _ => "str"
  | .arr _ => "list"
  | .obj _ => "dict"

mutual

/-- Python `repr` of a decoded JSON value (container elements are shown
with `repr`; string escapes inside `repr` are not modelled). -/
def pyRepr : Json → String
  | .null => "None"
  | .bool true => "True"
  | .bool false => "False"
  | .num n => toString n
  | .str s => "\x27" ++ s ++ "\x27"
  | .arr es => "[" ++ pyReprList es ++ "]"
  | .obj fs => "\x7b" ++ pyReprFields fs ++ "\x7d"

/-- Comma-separated `repr` of list elements. -/
def pyReprList : List Json → String
  | [] => ""
  | [j] => pyRepr j
  | j :: rest => pyRepr j ++ ", " ++ pyReprList rest

/-- Comma-separated `repr` of dictionary items. -/
def pyReprFields : List (String × Json) → String
  | [] => ""
  | [(k, v)] => "\x27" ++ k ++ "\x27: " ++ pyRepr v
  | (k, v) :: rest => "\x27" ++ k ++ "\x27: " ++ pyRepr v ++ ", " ++ pyReprFields rest

end

/-- Python `str` of a decoded JSON value, as interpolated by an f-string:
a string interpolates as itself, everything else as its `repr`/`str` form. -/
def fstr : Json → String
  | .str s => s
  | j => pyRepr j

/-- Python dictionary subscription `args[key]` on a decoded JSON value:
`KeyError` when the key is missing, `TypeError` when the value is not a
dictionary.  Errors are the `str(e)` of the raised exception. -/
def pyIndex : Json → String → Except String Json
  | .obj fields, key =>
      match Json.find fields key with
      | some v => .ok v
      | none => .error ("\x27" ++ key ++ "\x27")
  | .str _, _ => .error "string indices must be integers"
  | .arr _, _ => .error "list indices must be integers or slices, not str"
  | j, _ => .error (pyTypeName j ++ " object is not subscriptable")

/-- Python `args.get(key, default)` on a decoded JSON value:
`AttributeError` when the value is not a dictionary. -/
def pyGet : Json → String → Json → Except String Json
  | .obj fields, key, dflt => .ok ((Json.find fields key).getD dflt)
  | j, _, _ => .error (pyTypeName j ++ " object has no attribute get")

/-- Numeric value of a hexadecimal digit, both letter cases accepted
(code points 48 to 57 are the digits, 97 to 102 and 65 to 70 the letters). -/
def hexDigitVal (c : Char) : Option Nat :=
  let n := c.toNat
  if 48 ≤ n && n ≤ 57 then some (n - 48)
  else if 97 ≤ n && n ≤ 102 then some (n - 87)
  else if 65 ≤ n && n ≤ 70 then some (n - 55)
  else none

/-- A character is a hexadecimal digit when `hexDigitVal` assigns it a value. -/
def isHexDigit (c : Char) : Bool := (hexDigitVal c).isSome

/-- ASCII whitespace, which `bytes.fromhex` skips between byte pairs. -/
def isAsciiWs (c : Char) : Bool :=
  c == ' ' || c == '\t' || c == '\n' || c == '\r' || c == '\x0b' || c == '\x0c'

/-- Core of Python `bytes.fromhex`: whitespace may separate byte pairs, each
byte is exactly two adjacent hexadecimal digits; anything else fails. -/
def fromhexCore : List Char → Option (List Nat)
  | [] => some []
  | [c] => if isAsciiWs c then some [] else none
  | c1 :: c2 :: rest =>
      if isAsciiWs c1 then fromhexCore (c2 :: rest)
      else
        match hexDigitVal c1, hexDigitVal c2 with
        | some hi, some lo => (fromhexCore rest).map (fun bs => (16 * hi + lo) :: bs)
        | _, _ => none

/-- Python `bytes.fromhex(payload_hex)`: `TypeError` when the argument is not
a string, `ValueError` when it is not a well-formed hexadecimal string. -/
def bytesFromHex : Json → Except String (List Nat)
  | .str s =>
      match fromhexCore s.data with
      | some bs => .ok bs
      | none => .error "non-hexadecimal number found in fromhex() arg"
  | j => .error ("fromhex() argument must be str, not " ++ pyTypeName j)

/-- Lowercase hexadecimal digit character for a value below 16. -/
def hexChar (n : Nat) : Char :=
  if n < 10 then Char.ofNat (48 + n) else Char.ofNat (87 + n)

/-- Two lowercase hexadecimal digits of one byte, as in `bytes.hex()`. -/
def byteToHexChars (b : Nat) : List Char := [hexChar (b % 256 / 16), hexChar (b % 16)]

/-- Python `payload.hex()`: lowercase hexadecimal rendering of a byte string. -/
def bytesToHex (bs : List Nat) : String := String.mk ((bs.map byteToHexChars).flatten)

/-- Python `payload_length * 8` where `payload_length` is a decoded JSON
value: multiplication by an `int` repeats strings and lists, treats booleans
as 0/1, and raises `TypeError` on `None` and dictionaries. -/
def pyMulEight : Json → Except String Json
  | .num n => .ok (.num (n * 8))
  | .bool b => .ok (.num ((if b then (1 : Int) else 0) * 8))
  | .str s => .ok (.str (String.join (List.replicate 8 s)))
  | .arr es => .ok (.arr (List.replicate 8 es).flatten)
  | .null => .error "unsupported operand type for *: NoneType and int"
  | .obj _ => .error "unsupported operand type for *: dict and int"

/-- ASCII case folding of one character, as `str.lower` acts on the ASCII
range (the paths of this interface; non-ASCII case folding is not modelled). -/
def toLowerChar (c : Char) : Char :=
  if 'A' ≤ c && c ≤ 'Z' then Char.ofNat (c.toNat + 32) else c

/-- Python `s.lower()`. -/
def pyLower (s : String) : String := String.mk (s.data.map toLowerChar)

/-- Whether `t` is a suffix of `l`, by comparing the last `t.length` elements. -/
def listEndsWith (l t : List Char) : Bool := l.drop (l.length - t.length) == t

/-- Python `s.endswith(t)`. -/
def pyEndsWith (s t : String) : Bool := listEndsWith s.data t.data

/-- OpenCV flag `cv2.IMWRITE_JPEG_QUALITY`. -/
def IMWRITE_JPEG_QUALITY : Int := 1

/-- OpenCV flag `cv2.IMWRITE_PNG_COMPRESSION`. -/
def IMWRITE_PNG_COMPRESSION : Int := 16

/-- OpenCV flag `cv2.IMWRITE_WEBP_QUALITY`. -/
def IMWRITE_WEBP_QUALITY : Int := 64

/-- One call to an external capability, with the arguments the script passed
to it.  `Img` is the abstract type of in-memory pixel buffers. -/
inductive ExtCall (Img : Type) where
  | jsonLoads (arg : String)
  | imread (path : Json)
  | wmEncode (payload : List Nat) (img : Img)
  | imwrite (path : String) (img : Img) (params : List Json)
  | wmDecode (bits : Json) (img : Img)

/-- Observable result of one process invocation: the JSON objects printed to
standard output, the exit code, and the trace of external calls made. -/
structure Run (Img : Type) where
  printed : List Json
  exitCode : Nat
  calls : List (ExtCall Img)

/-- The failure JSON object `{"status": "error", "message": msg}`. -/
def errObj (msg : String) : Json :=
  .obj [("status", Json.str "error"), ("message", Json.str msg)]

/-- The embed success JSON object `{"status": "ok"}`. -/
def okEmbedObj : Json := .obj [("status", Json.str "ok")]

/-- The detect success JSON object `{"status": "ok", "payload_hex": hex}`. -/
def okDetectObj (hex : String) : Json :=
  .obj [("status", Json.str "ok"), ("payload_hex", Json.str hex)]

/-- The encoder parameter list the embedder passes to `cv2.imwrite`,
chosen from the output path extension exactly as in lines 33 to 40 of
`scripts/embed_watermark.py`: the chain of `output_path.lower().endswith`
tests selecting JPEG quality, PNG compression 3, WEBP quality, or no
parameters. -/
def writeParams (op : String) (jpegQuality : Json) : List Json :=
  if (pyEndsWith (pyLower op) ".jpg" || pyEndsWith (pyLower op) ".jpeg") then
    [Json.num IMWRITE_JPEG_QUALITY, jpegQuality]
  else if pyEndsWith (pyLower op) ".png" then
    [Json.num IMWRITE_PNG_COMPRESSION, Json.num 3]
  else if pyEndsWith (pyLower op) ".webp" then
    [Json.num IMWRITE_WEBP_QUALITY, jpegQuality]
  else []

/-- Outcome of the top-level `except Exception` handler: print the failure
object carrying `str(e)` and exit with code 1. -/
def errExit {Img : Type} (calls : List (ExtCall Img)) (msg : String) : Run Img :=
  { printed := [errObj msg], exitCode := 1, calls := calls }

/-- External environment of one embed invocation: what each capability call
returns.  `Except` errors are exceptions raised inside the capability. -/
structure EmbedEnv (Img : Type) where
  jsonLoads : String → Except String Json
  importsOk : Except String Unit
  imread : Json → Except String (Option Img)
  wmEncode : List Nat → Img → Except String Img
  imwrite : String → Img → List Json → Except String Bool

/-- External environment of one detect invocation. -/
structure DetectEnv (Img : Type) where
  jsonLoads : String → Except String Json
  importsOk : Except String Unit
  imread : Json → Except String (Option Img)
  wmDecode : Json → Img → Except String (List Nat)

/-- The whole `main` of `scripts/embed_watermark.py`, line by line:
argument parse, required-field extraction, optional `jpeg_quality`
(default 92), imports, `cv2.imread` with the explicit `None` check and
`sys.exit(1)`, `bytes.fromhex`, the watermark encode, the
extension-dispatched `cv2.imwrite` (whose boolean result the script
ignores), the success print, and the top-level exception handler. -/
def embedMain {Img : Type} (env : EmbedEnv Img) (argv1 : Option String) : Run Img :=
  match argv1 with
  | none => errExit [] "list index out of range"
  | some argStr =>
    match env.jsonLoads argStr with
    | .error msg => errExit [.jsonLoads argStr] msg
    | .ok args =>
      match pyIndex args "input_path" with
      | .error msg => errExit [.jsonLoads argStr] msg
      | .ok inputPath =>
        match pyIndex args "output_path" with
        | .error msg => errExit [.jsonLoads argStr] msg
        | .ok outputPath =>
          match pyIndex args "payload_hex" with
          | .error msg => errExit [.jsonLoads argStr] msg
          | .ok payloadHex =>
            match pyGet args "jpeg_quality" (Json.num 92) with
            | .error msg => errExit [.jsonLoads argStr] msg
            | .ok jpegQuality =>
              match env.importsOk with
              | .error msg => errExit [.jsonLoads argStr] msg
              | .ok _ =>
                match env.imread inputPath with
                | .error msg => errExit [.jsonLoads argStr, .imread inputPath] msg
                | .ok none =>
                    { printed := [errObj ("Failed to read image: " ++ fstr inputPath)],
                      exitCode := 1,
                      calls := [.jsonLoads argStr, .imread inputPath] }
                | .ok (some img) =>
                  match bytesFromHex payloadHex with
                  | .error msg => errExit [.jsonLoads argStr, .imread inputPath] msg
                  | .ok payloadBytes =>
                    match env.wmEncode payloadBytes img with
                    | .error msg =>
                        errExit [.jsonLoads argStr, .imread inputPath,
                                 .wmEncode payloadBytes img] msg
                    | .ok watermarked =>
                      match outputPath with
                      | .str op =>
                        match env.imwrite op watermarked (writeParams op jpegQuality) with
                        | .error msg =>
                            errExit [.jsonLoads argStr, .imread inputPath,
                                     .wmEncode payloadBytes img,
                                     .imwrite op watermarked (writeParams op jpegQuality)] msg
                        | .ok _written =>
                            { printed := [okEmbedObj], exitCode := 0,
                              calls := [.jsonLoads argStr, .imread inputPath,
                                        .wmEncode payloadBytes img,
                                        .imwrite op watermarked (writeParams op jpegQuality)] }
                      | other =>
                          errExit [.jsonLoads argStr, .imread inputPath,
                                   .wmEncode payloadBytes img]
                            ("\x27" ++ pyTypeName other ++ "\x27 object has no attribute \x27lower\x27")

/-- The whole `main` of `scripts/detect_watermark.py`, line by line:
argument parse, required `input_path`, optional `payload_length`
(default 16), imports, `cv2.imread` with the explicit `None` check,
the byte-to-bit conversion `payload_length * 8`, the watermark decode,
the success print with `payload.hex()`, and the exception handler. -/
def detectMain {Img : Type} (env : DetectEnv Img) (argv1 : Option String) : Run Img :=
  match argv1 with
  | none => errExit [] "list index out of range"
  | some argStr =>
    match env.jsonLoads argStr with
    | .error msg => errExit [.jsonLoads argStr] msg
    | .ok args =>
      match pyIndex args "input_path" with
      | .error msg => errExit [.jsonLoads argStr] msg
      | .ok inputPath =>
        match pyGet args "payload_length" (Json.num 16) with
        | .error msg => errExit [.jsonLoads argStr] msg
        | .ok payloadLength =>
          match env.importsOk with
          | .error msg => errExit [.jsonLoads argStr] msg
          | .ok _ =>
            match env.imread inputPath with
            | .error msg => errExit [.jsonLoads argStr, .imread inputPath] msg
            | .ok none =>
                { printed := [errObj ("Failed to read image: " ++ fstr inputPath)],
                  exitCode := 1,
                  calls := [.jsonLoads argStr, .imread inputPath] }
            | .ok (some img) =>
              match pyMulEight payloadLength with
              | .error msg => errExit [.jsonLoads argStr, .imread inputPath] msg
              | .ok bits =>
                match env.wmDecode bits img with
                | .error msg =>
                    errExit [.jsonLoads argStr, .imread inputPath, .wmDecode bits img] msg
                | .ok payload =>
                    { printed := [okDetectObj (bytesToHex payload)], exitCode := 0,
                      calls := [.jsonLoads argStr, .imread inputPath, .wmDecode bits img] }

/-! Spec-side definitions, for comparison with the embedded code. -/

/-- Spec-side hex decoding: consecutive pairs of hexadecimal digits, high
digit first, letter case immaterial (digit values only). -/
def hexPairs : List Char → List Nat
  | c1 :: c2 :: rest =>
      (16 * ((hexDigitVal c1).getD 0) + (hexDigitVal c2).getD 0) :: hexPairs rest
  | _ => []

/-- Spec-side hex decoding of a string. -/
def hexDecodeSpec (s : String) : List Nat := hexPairs s.data

/-- The encoding-profile table of section 4.5 of the spec, rendered as the
cv2 parameter list each row prescribes: `.jpg`/`.jpeg` rows apply JPEG
quality equal to the configured quality, `.png` applies fixed PNG
compression level 3, `.webp` applies WEBP quality equal to the configured
quality, anything else applies the codec default (no parameters); the
extension is inspected case-insensitively. -/
def specEncodingParams (outPath : String) (quality : Json) : List Json :=
  if (pyEndsWith (pyLower outPath) ".jpg" || pyEndsWith (pyLower outPath) ".jpeg") then
    [Json.num IMWRITE_JPEG_QUALITY, quality]
  else if pyEndsWith (pyLower outPath) ".png" then
    [Json.num IMWRITE_PNG_COMPRESSION, Json.num 3]
  else if pyEndsWith (pyLower outPath) ".webp" then
    [Json.num IMWRITE_WEBP_QUALITY, quality]
  else []

/-! Helper lemmas. -/

/-- A hexadecimal digit is not ASCII whitespace. -/
theorem hex_not_ws {c : Char} (h : isHexDigit c = true) : isAsciiWs c = false := by
  simp only [isAsciiWs, Bool.or_eq_false_iff, beq_eq_false_iff_ne, ne_eq]
  refine ⟨⟨⟨⟨⟨?_, ?_⟩, ?_⟩, ?_⟩, ?_⟩, ?_⟩ <;> (rintro rfl; revert h; decide)

/-- On an even-length string of hexadecimal digits, `bytes.fromhex` succeeds
and produces exactly the spec-side pairwise decoding. -/
theorem fromhexCore_valid :
    ∀ (l : List Char), (∀ c ∈ l, isHexDigit c = true) → l.length % 2 = 0 →
      fromhexCore l = some (hexPairs l)
  | [], _, _ => rfl
  | [c], _, hlen => by simp at hlen
  | c1 :: c2 :: rest, h, hlen => by
      have h1 := h c1 (by simp)
      have h2 := h c2 (by simp)
      have hws := hex_not_ws h1
      obtain ⟨v1, hv1⟩ := Option.isSome_iff_exists.mp h1
      obtain ⟨v2, hv2⟩ := Option.isSome_iff_exists.mp h2
      have hrl : rest.length % 2 = 0 := by simp [List.length] at hlen; omega
      have ih := fromhexCore_valid rest (fun c hc => h c (by simp [hc])) hrl
      simp [fromhexCore, hexPairs, hws, hv1, hv2, ih]

/-- The spec-side decoding of an even-length digit string has exactly one
byte per digit pair: no truncation. -/
theorem hexPairs_length :
    ∀ (l : List Char), l.length % 2 = 0 → 2 * (hexPairs l).length = l.length
  | [], _ => rfl
  | [_], h => by simp at h
  | _ :: _ :: rest, h => by
      have hrl : rest.length % 2 = 0 := by simp [List.length] at h; omega
      have ih := hexPairs_length rest hrl
      simp [hexPairs, List.length]
      omega

/-- The spec-side decoding depends only on the digit values of the
characters, hence not on their letter case. -/
theorem hexPairs_congr :
    ∀ (l1 l2 : List Char), l1.map hexDigitVal = l2.map hexDigitVal →
      hexPairs l1 = hexPairs l2
  | [], l2, h => by
      cases l2 with
      | nil => rfl
      | cons d t => simp at h
  | [c], l2, h => by
      cases l2 with
      | nil => simp at h
      | cons d t =>
        cases t with
        | nil => simp [hexPairs]
        | cons e r2 => simp at h
  | c1 :: c2 :: r, l2, h => by
      cases l2 with
      | nil => simp at h
      | cons d t =>
        cases t with
        | nil => simp at h
        | cons e r2 =>
          simp only [List.map, List.cons.injEq] at h
          obtain ⟨h1, h2, h3⟩ := h
          simp [hexPairs, h1, h2, hexPairs_congr r r2 h3]

/-- Python `bytes.fromhex` on a valid (even-length, digits-only) hex string
returns the spec-side decoding. -/
theorem bytesFromHex_valid (s : String) (hd : ∀ c ∈ s.data, isHexDigit c = true)
    (he : s.data.length % 2 = 0) :
    bytesFromHex (.str s) = .ok (hexDecodeSpec s) := by
  simp [bytesFromHex, hexDecodeSpec, fromhexCore_valid s.data hd he]

/-- A successful dictionary subscription means the value was a dictionary
containing the key. -/
theorem pyIndex_ok_obj {j : Json} {k : String} {v : Json} (h : pyIndex j k = .ok v) :
    ∃ fs, j = .obj fs ∧ Json.find fs k = some v := by
  cases j with
  | obj fs =>
      unfold pyIndex at h
      rcases hf : Json.find fs k with _ | w
      · simp [hf] at h
      · simp only [hf] at h
        refine ⟨fs, rfl, ?_⟩
        rw [hf]
        cases h
        rfl
  | null => cases h
  | bool b => cases h
  | num n => cases h
  | str s => cases h
  | arr es => cases h

/-! Concrete environments used to exhibit runs of the utilities. -/

/-- Embed arguments with all fields present, an uppercase `.JPG` output
path, mixed-case payload hex and an explicit quality of 80. -/
def wEmbedArgs : Json :=
  .obj [("input_path", .str "a.png"), ("output_path", .str "B.JPG"),
        ("payload_hex", .str "AbCd12"), ("jpeg_quality", .num 80)]

/-- Embed arguments without the optional `jpeg_quality` field. -/
def wEmbedArgsNoQ : Json :=
  .obj [("input_path", .str "a.png"), ("output_path", .str "b.jpg"),
        ("payload_hex", .str "ff00")]

/-- Detect arguments with an explicit `payload_length` of 16 bytes. -/
def wDetectArgs : Json :=
  .obj [("input_path", .str "a.png"), ("payload_length", .num 16)]

/-- Detect arguments without the optional `payload_length` field. -/
def wDetectArgsNoLen : Json := .obj [("input_path", .str "a.png")]

/-- An embed environment where every external call succeeds and the given
argument object is what `json.loads` yields. -/
def happyEmbedEnv (args : Json) : EmbedEnv Unit :=
  { jsonLoads := fun _ => .ok args
    importsOk := .ok ()
    imread := fun _ => .ok (some ())
    wmEncode := fun _ _ => .ok ()
    imwrite := fun _ _ _ => .ok true }

/-- A detect environment where every external call succeeds and the decoder
recovers the bytes `0xAB 0xCD`. -/
def happyDetectEnv (args : Json) : DetectEnv Unit :=
  { jsonLoads := fun _ => .ok args
    importsOk := .ok ()
    imread := fun _ => .ok (some ())
    wmDecode := fun _ _ => .ok [171, 205] }

/-- An embed environment whose image load yields no buffer (`cv2.imread`
returns `None`: missing or undecodable input file). -/
def badReadEmbedEnv (args : Json) : EmbedEnv Unit :=
  { happyEmbedEnv args with imread := fun _ => .ok none }

/-- A detect environment whose image load yields no buffer. -/
def badReadDetectEnv (args : Json) : DetectEnv Unit :=
  { happyDetectEnv args with imread := fun _ => .ok none }

/-- An embed environment whose output write fails without raising:
`cv2.imwrite` signals an unwritable output path by returning `False`. -/
def silentWriteFailEnv : EmbedEnv Unit :=
  { happyEmbedEnv (.obj [("input_path", .str "a.png"),
      ("output_path", .str "missing_dir/b.png"), ("payload_hex", .str "ff")]) with
    imwrite := fun _ _ _ => .ok false }

/-! Claim theorems. -/

/-- Claim C1 (refuted; the code contradicts the spec here).  The claim says
an embed invocation whose image load, hex decode and watermark embed succeed
but whose output write fails must emit the failure JSON object and exit 1.
`cv2.imwrite` signals an unwritable output path by returning `False` rather
than raising, and line 34 to 40 of `scripts/embed_watermark.py` discard that
boolean, so such a run prints the success object `{"status": "ok"}` and
exits 0: in the environment `silentWriteFailEnv` the load, decode and embed
all succeed, the write is attempted (it is in the call trace) and reports
failure, yet the run is reported as a success. -/
theorem claim1_write_failure_ignored :
    (embedMain silentWriteFailEnv (some "argv")).printed = [okEmbedObj] ∧
    (embedMain silentWriteFailEnv (some "argv")).exitCode = 0 ∧
    ExtCall.imwrite "missing_dir/b.png" () [Json.num IMWRITE_PNG_COMPRESSION, Json.num 3]
      ∈ (embedMain silentWriteFailEnv (some "argv")).calls ∧
    silentWriteFailEnv.imwrite "missing_dir/b.png" ()
      [Json.num IMWRITE_PNG_COMPRESSION, Json.num 3] = .ok false :=
  ⟨rfl, rfl,
    List.Mem.tail _ (List.Mem.tail _ (List.Mem.tail _ (List.Mem.head _))), rfl⟩

/-- Claim C2.  For every invocation of either utility, whatever the
environment returns and whether or not an argument string is present, the
process prints exactly one JSON object, which is either the failure shape
`{"status": "error", "message": m}` printed with exit code 1 or the
utility's success shape printed with exit code 0. -/
theorem claim2_single_json_and_exit_code :
    ∀ (Img : Type) (enc : EmbedEnv Img) (dec : DetectEnv Img) (a : Option String),
      ((embedMain enc a).printed.length = 1 ∧
        ((∃ m, (embedMain enc a).printed = [errObj m] ∧ (embedMain enc a).exitCode = 1) ∨
          ((embedMain enc a).printed = [okEmbedObj] ∧ (embedMain enc a).exitCode = 0))) ∧
      ((detectMain dec a).printed.length = 1 ∧
        ((∃ m, (detectMain dec a).printed = [errObj m] ∧ (detectMain dec a).exitCode = 1) ∨
          (∃ h, (detectMain dec a).printed = [okDetectObj h] ∧
            (detectMain dec a).exitCode = 0))) := by
  intro Img enc dec a
  constructor
  · unfold embedMain
    cases a with
    | none => exact ⟨rfl, Or.inl ⟨_, rfl, rfl⟩⟩
    | some s =>
      repeat' split
      all_goals first
        | exact ⟨rfl, Or.inl ⟨_, rfl, rfl⟩⟩
        | exact ⟨rfl, Or.inr ⟨rfl, rfl⟩⟩
  · unfold detectMain
    cases a with
    | none => exact ⟨rfl, Or.inl ⟨_, rfl, rfl⟩⟩
    | some s =>
      repeat' split
      all_goals first
        | exact ⟨rfl, Or.inl ⟨_, rfl, rfl⟩⟩
        | exact ⟨rfl, Or.inr ⟨_, rfl, rfl⟩⟩

/-- Claim C3.  In every embed invocation that reaches the output-writing
step (a `cv2.imwrite` call appears in the trace), the parameter list passed
to the writer is exactly the row of the spec's encoding-profile table for
the output path's extension, inspected case-insensitively, with the
configured `jpeg_quality` as the JPEG and WEBP quality and fixed PNG
compression level 3. -/
theorem claim3_extension_dispatch {Img : Type} (env : EmbedEnv Img) (a : String)
    (args q : Json) (p : String) (im : Img) (o : List Json)
    (hj : env.jsonLoads a = .ok args)
    (hq : pyGet args "jpeg_quality" (Json.num 92) = .ok q)
    (hmem : ExtCall.imwrite p im o ∈ (embedMain env (some a)).calls) :
    o = specEncodingParams p q := by
  simp only [embedMain, hj, hq] at hmem
  repeat' split at hmem
  all_goals simp_all [errExit]
  all_goals (obtain ⟨h1, h2, h3⟩ := hmem; subst h1; subst h3; rfl)

/-- Claim C3 witness: a run writing to the uppercase path `B.JPG` with
configured quality 80 passes the JPEG quality parameter 80 to the writer. -/
theorem claim3_extension_dispatch_witness :
    ExtCall.imwrite "B.JPG" () [Json.num 1, Json.num 80]
      ∈ (embedMain (happyEmbedEnv wEmbedArgs) (some "argv")).calls ∧
    ([Json.num 1, Json.num 80] : List Json) = specEncodingParams "B.JPG" (Json.num 80) :=
  have hm : ExtCall.imwrite "B.JPG" () [Json.num 1, Json.num 80]
      ∈ (embedMain (happyEmbedEnv wEmbedArgs) (some "argv")).calls :=
    List.Mem.tail _ (List.Mem.tail _ (List.Mem.tail _ (List.Mem.head _)))
  ⟨hm, claim3_extension_dispatch (happyEmbedEnv wEmbedArgs) "argv" wEmbedArgs
    (Json.num 80) "B.JPG" () [Json.num 1, Json.num 80] rfl rfl hm⟩

/-- Claim C4.  In every detect invocation whose argument object supplies an
integer `payload_length` of N, the bit length the underlying decode
capability is invoked with is exactly N * 8. -/
theorem claim4_bit_length {Img : Type} (env : DetectEnv Img) (a : String)
    (args : Json) (n : Int) (bits : Json) (im : Img)
    (hj : env.jsonLoads a = .ok args)
    (hn : pyGet args "payload_length" (Json.num 16) = .ok (Json.num n))
    (hmem : ExtCall.wmDecode bits im ∈ (detectMain env (some a)).calls) :
    bits = Json.num (n * 8) := by
  simp only [detectMain, hj, hn] at hmem
  repeat' split at hmem
  all_goals simp_all [errExit, pyMulEight]

/-- Claim C4 witness: a supplied `payload_length` of 16 bytes makes the
decoder capability receive the bit length 128. -/
theorem claim4_bit_length_witness :
    ExtCall.wmDecode (Json.num 128) ()
      ∈ (detectMain (happyDetectEnv wDetectArgs) (some "argv")).calls ∧
    Json.num 128 = Json.num (16 * 8) :=
  have hm : ExtCall.wmDecode (Json.num 128) ()
      ∈ (detectMain (happyDetectEnv wDetectArgs) (some "argv")).calls :=
    List.Mem.tail _ (List.Mem.tail _ (List.Mem.head _))
  ⟨hm, claim4_bit_length (happyDetectEnv wDetectArgs) "argv" wDetectArgs 16
    (Json.num 128) () rfl rfl hm⟩

/-- Claim C5.  In every embed invocation whose `payload_hex` is a valid hex
string (an even number of hexadecimal digits, either letter case), the byte
sequence handed to the watermark embedding capability is exactly the
pairwise hex decoding of `payload_hex`, one byte per digit pair with no
truncation; and that decoding depends only on the digit values, so it is
independent of the letter case of the digits. -/
theorem claim5_hex_roundtrip {Img : Type} (env : EmbedEnv Img) (a : String)
    (args : Json) (hx : String) (pb : List Nat) (im : Img)
    (hj : env.jsonLoads a = .ok args)
    (hp : pyIndex args "payload_hex" = .ok (.str hx))
    (hd : ∀ c ∈ hx.data, isHexDigit c = true)
    (he : hx.data.length % 2 = 0)
    (hmem : ExtCall.wmEncode pb im ∈ (embedMain env (some a)).calls) :
    pb = hexDecodeSpec hx ∧ 2 * pb.length = hx.data.length ∧
      ∀ s2 : String, s2.data.map hexDigitVal = hx.data.map hexDigitVal →
        hexDecodeSpec s2 = hexDecodeSpec hx := by
  have hbf := bytesFromHex_valid hx hd he
  have hpb : pb = hexDecodeSpec hx := by
    simp only [embedMain, hj, hp, hbf] at hmem
    repeat' split at hmem
    all_goals simp_all [errExit]
  refine ⟨hpb, ?_, ?_⟩
  · rw [hpb]
    exact hexPairs_length hx.data he
  · intro s2 h2
    exact hexPairs_congr s2.data hx.data h2

/-- Claim C5 witness: the mixed-case payload `AbCd12` reaches the embedding
capability as the bytes `0xAB 0xCD 0x12`, the full three bytes. -/
theorem claim5_hex_roundtrip_witness :
    ExtCall.wmEncode [171, 205, 18] ()
      ∈ (embedMain (happyEmbedEnv wEmbedArgs) (some "argv")).calls ∧
    (([171, 205, 18] : List Nat) = hexDecodeSpec "AbCd12" ∧
      2 * ([171, 205, 18] : List Nat).length = "AbCd12".data.length ∧
      ∀ s2 : String, s2.data.map hexDigitVal = "AbCd12".data.map hexDigitVal →
        hexDecodeSpec s2 = hexDecodeSpec "AbCd12") :=
  have hm : ExtCall.wmEncode [171, 205, 18] ()
      ∈ (embedMain (happyEmbedEnv wEmbedArgs) (some "argv")).calls :=
    List.Mem.tail _ (List.Mem.tail _ (List.Mem.head _))
  ⟨hm, claim5_hex_roundtrip (happyEmbedEnv wEmbedArgs) "argv" wEmbedArgs
    "AbCd12" [171, 205, 18] () rfl rfl (by decide) (by decide) hm⟩

/-- Claim C6.  In every invocation of either utility whose image load yields
no buffer (`cv2.imread` returns `None`: missing or undecodable input file),
and which reaches the load (argument parsing and imports succeeded), the
process prints a failure object whose message string contains the input
path, and exits with code 1. -/
theorem claim6_unreadable_input_message :
    (∀ (Img : Type) (env : EmbedEnv Img) (a : String) (args : Json) (p : String),
      env.jsonLoads a = .ok args →
      pyIndex args "input_path" = .ok (.str p) →
      (∃ op, pyIndex args "output_path" = .ok op) →
      (∃ ph, pyIndex args "payload_hex" = .ok ph) →
      env.importsOk = .ok () →
      env.imread (.str p) = .ok none →
      ∃ m, (embedMain env (some a)).printed = [errObj m] ∧
        (∃ pre suf, m = pre ++ p ++ suf) ∧
        (embedMain env (some a)).exitCode = 1) ∧
    (∀ (Img : Type) (env : DetectEnv Img) (a : String) (args : Json) (p : String),
      env.jsonLoads a = .ok args →
      pyIndex args "input_path" = .ok (.str p) →
      env.importsOk = .ok () →
      env.imread (.str p) = .ok none →
      ∃ m, (detectMain env (some a)).printed = [errObj m] ∧
        (∃ pre suf, m = pre ++ p ++ suf) ∧
        (detectMain env (some a)).exitCode = 1) := by
  constructor
  · intro Img env a args p hj hip ⟨op, hop⟩ ⟨ph, hph⟩ him hread
    obtain ⟨fs, rfl, _⟩ := pyIndex_ok_obj hip
    refine ⟨"Failed to read image: " ++ p, ?_,
      ⟨"Failed to read image: ", "", by simp⟩, ?_⟩ <;>
      simp [embedMain, hj, hip, hop, hph, him, hread, pyGet, fstr]
  · intro Img env a args p hj hip him hread
    obtain ⟨fs, rfl, _⟩ := pyIndex_ok_obj hip
    refine ⟨"Failed to read image: " ++ p, ?_,
      ⟨"Failed to read image: ", "", by simp⟩, ?_⟩ <;>
      simp [detectMain, hj, hip, him, hread, pyGet, fstr]

/-- Claim C6 witness: with input path `a.png` unreadable, both utilities
print a failure object whose message contains `a.png` and exit 1. -/
theorem claim6_unreadable_input_message_witness :
    (∃ m, (embedMain (badReadEmbedEnv wEmbedArgs) (some "argv")).printed = [errObj m] ∧
      (∃ pre suf, m = pre ++ "a.png" ++ suf) ∧
      (embedMain (badReadEmbedEnv wEmbedArgs) (some "argv")).exitCode = 1) ∧
    (∃ m, (detectMain (badReadDetectEnv wDetectArgs) (some "argv")).printed = [errObj m] ∧
      (∃ pre suf, m = pre ++ "a.png" ++ suf) ∧
      (detectMain (badReadDetectEnv wDetectArgs) (some "argv")).exitCode = 1) :=
  ⟨claim6_unreadable_input_message.1 Unit (badReadEmbedEnv wEmbedArgs) "argv"
      wEmbedArgs "a.png" rfl rfl ⟨.str "B.JPG", rfl⟩ ⟨.str "AbCd12", rfl⟩ rfl rfl,
    claim6_unreadable_input_message.2 Unit (badReadDetectEnv wDetectArgs) "argv"
      wDetectArgs "a.png" rfl rfl rfl rfl⟩

/-- Claim C7.  When the embed argument object has no `jpeg_quality` field,
any write performed uses the encoding profile computed with quality 92;
when the detect argument object has no `payload_length` field, the decode
capability is invoked with bit length 128, that is 16 bytes. -/
theorem claim7_defaults :
    (∀ (Img : Type) (env : EmbedEnv Img) (a : String) (fs : List (String × Json))
       (p : String) (im : Img) (o : List Json),
      env.jsonLoads a = .ok (.obj fs) →
      Json.find fs "jpeg_quality" = none →
      ExtCall.imwrite p im o ∈ (embedMain env (some a)).calls →
      o = specEncodingParams p (Json.num 92)) ∧
    (∀ (Img : Type) (env : DetectEnv Img) (a : String) (fs : List (String × Json))
       (bits : Json) (im : Img),
      env.jsonLoads a = .ok (.obj fs) →
      Json.find fs "payload_length" = none →
      ExtCall.wmDecode bits im ∈ (detectMain env (some a)).calls →
      bits = Json.num 128) := by
  constructor
  · intro Img env a fs p im o hj hnone hmem
    simp only [embedMain, hj, pyGet, hnone, Option.getD] at hmem
    repeat' split at hmem
    all_goals simp_all [errExit]
    all_goals (obtain ⟨h1, h2, h3⟩ := hmem; subst h1; subst h3; rfl)
  · intro Img env a fs bits im hj hnone hmem
    simp only [detectMain, hj, pyGet, hnone, Option.getD] at hmem
    repeat' split at hmem
    all_goals simp_all [errExit, pyMulEight]

/-- Claim C7 witness: with `jpeg_quality` omitted a write to `b.jpg` uses
quality 92, and with `payload_length` omitted the decoder receives 128
bits. -/
theorem claim7_defaults_witness :
    (ExtCall.imwrite "b.jpg" () [Json.num 1, Json.num 92]
      ∈ (embedMain (happyEmbedEnv wEmbedArgsNoQ) (some "argv")).calls ∧
      ([Json.num 1, Json.num 92] : List Json) = specEncodingParams "b.jpg" (Json.num 92)) ∧
    (ExtCall.wmDecode (Json.num 128) ()
      ∈ (detectMain (happyDetectEnv wDetectArgsNoLen) (some "argv")).calls ∧
      Json.num 128 = Json.num 128) :=
  have hm1 : ExtCall.imwrite "b.jpg" () [Json.num 1, Json.num 92]
      ∈ (embedMain (happyEmbedEnv wEmbedArgsNoQ) (some "argv")).calls :=
    List.Mem.tail _ (List.Mem.tail _ (List.Mem.tail _ (List.Mem.head _)))
  have hm2 : ExtCall.wmDecode (Json.num 128) ()
      ∈ (detectMain (happyDetectEnv wDetectArgsNoLen) (some "argv")).calls :=
    List.Mem.tail _ (List.Mem.tail _ (List.Mem.head _))
  ⟨⟨hm1, claim7_defaults.1 Unit (happyEmbedEnv wEmbedArgsNoQ) "argv"
      [("input_path", .str "a.png"), ("output_path", .str "b.jpg"),
       ("payload_hex", .str "ff00")] "b.jpg" () [Json.num 1, Json.num 92] rfl rfl hm1⟩,
    ⟨hm2, claim7_defaults.2 Unit (happyDetectEnv wDetectArgsNoLen) "argv"
      [("input_path", .str "a.png")] (Json.num 128) () rfl rfl hm2⟩⟩

/-- Claim C8.  Every successful invocation (exit code 0) prints exactly the
success object: for embed the object `{"status": "ok"}` with no
`payload_hex` field, and for detect the object `{"status": "ok",
"payload_hex": h}` where `h` is the lowercase hex encoding of the bytes the
decode capability recovered. -/
theorem claim8_success_shape :
    (∀ (Img : Type) (env : EmbedEnv Img) (a : Option String),
      (embedMain env a).exitCode = 0 →
      (embedMain env a).printed = [Json.obj [("status", Json.str "ok")]]) ∧
    (∀ (Img : Type) (env : DetectEnv Img) (a : Option String),
      (detectMain env a).exitCode = 0 →
      ∃ bits im bs, env.wmDecode bits im = .ok bs ∧
        (detectMain env a).printed =
          [Json.obj [("status", Json.str "ok"),
                     ("payload_hex", Json.str (bytesToHex bs))]]) := by
  constructor
  · intro Img env a h
    unfold embedMain at h ⊢
    cases a with
    | none => cases h
    | some s =>
      repeat' split at h <;> try (cases h)
      all_goals simp_all [errExit, okEmbedObj]
  · intro Img env a h
    unfold detectMain at h ⊢
    cases a with
    | none => cases h
    | some s =>
      repeat' split at h <;> try (cases h)
      all_goals simp_all [errExit, okDetectObj]
      all_goals exact ⟨_, _, _, by assumption, rfl⟩

/-- Claim C8 witness: a fully successful embed run prints exactly the ok
object, and a successful detect run prints the ok object carrying the hex
encoding `abcd` of the recovered bytes `0xAB 0xCD`. -/
theorem claim8_success_shape_witness :
    ((embedMain (happyEmbedEnv wEmbedArgs) (some "argv")).exitCode = 0 ∧
      (embedMain (happyEmbedEnv wEmbedArgs) (some "argv")).printed =
        [Json.obj [("status", Json.str "ok")]]) ∧
    ((detectMain (happyDetectEnv wDetectArgs) (some "argv")).exitCode = 0 ∧
      ∃ bits im bs, (happyDetectEnv wDetectArgs).wmDecode bits im = .ok bs ∧
        (detectMain (happyDetectEnv wDetectArgs) (some "argv")).printed =
          [Json.obj [("status", Json.str "ok"),
                     ("payload_hex", Json.str (bytesToHex bs))]]) :=
  ⟨⟨rfl, claim8_success_shape.1 Unit (happyEmbedEnv wEmbedArgs) (some "argv") rfl⟩,
    ⟨rfl, claim8_success_shape.2 Unit (happyDetectEnv wDetectArgs) (some "argv") rfl⟩⟩

/-- Claim C9.  An invocation of either utility with no positional argument
at all (`sys.argv[1]` raises `IndexError`, caught by the handler) prints
the failure JSON object with the message `list index out of range` and
exits with code 1, without making any external call. -/
theorem claim9_missing_argv :
    ∀ (Img : Type) (enc : EmbedEnv Img) (dec : DetectEnv Img),
      embedMain enc none =
        { printed := [errObj "list index out of range"], exitCode := 1, calls := [] } ∧
      detectMain dec none =
        { printed := [errObj "list index out of range"], exitCode := 1, calls := [] } :=
  fun _ _ _ => ⟨rfl, rfl⟩

/-- Claim C10 (stated in contrapositive form).  Whenever an embed run
contains an output write in its trace, every earlier pipeline stage
succeeded: the argument string was present and parsed, all three required
fields were extracted, the image load yielded a buffer, the hex decode of
`payload_hex` succeeded, and the watermark embed succeeded.  Hence on every
failure path of those stages (malformed JSON, missing field, unreadable
image, non-hex payload, embed failure) no `cv2.imwrite` call occurs and the
file system at the output path is untouched. -/
theorem claim10_no_write_before_success {Img : Type} (env : EmbedEnv Img)
    (a : Option String) (p : String) (im : Img) (o : List Json)
    (hmem : ExtCall.imwrite p im o ∈ (embedMain env a).calls) :
    ∃ s args ip op hx imgIn pb wm,
      a = some s ∧ env.jsonLoads s = .ok args ∧
      pyIndex args "input_path" = .ok ip ∧
      pyIndex args "output_path" = .ok op ∧
      pyIndex args "payload_hex" = .ok hx ∧
      env.imread ip = .ok (some imgIn) ∧
      bytesFromHex hx = .ok pb ∧
      env.wmEncode pb imgIn = .ok wm := by
  unfold embedMain at hmem
  cases a with
  | none => simp [errExit] at hmem
  | some s =>
    repeat' split at hmem
    all_goals simp_all [errExit]

/-- Claim C10 witness: a run that does write has successfully passed every
earlier stage, exhibited on the all-succeeding environment. -/
theorem claim10_no_write_before_success_witness :
    ∃ s args ip op hx imgIn pb wm,
      (some "argv" : Option String) = some s ∧
      (happyEmbedEnv wEmbedArgs).jsonLoads s = .ok args ∧
      pyIndex args "input_path" = .ok ip ∧
      pyIndex args "output_path" = .ok op ∧
      pyIndex args "payload_hex" = .ok hx ∧
      (happyEmbedEnv wEmbedArgs).imread ip = .ok (some imgIn) ∧
      bytesFromHex hx = .ok pb ∧
      (happyEmbedEnv wEmbedArgs).wmEncode pb imgIn = .ok wm :=
  claim10_no_write_before_success (happyEmbedEnv wEmbedArgs) (some "argv")
    "B.JPG" () [Json.num 1, Json.num 80]
    (List.Mem.tail _ (List.Mem.tail _ (List.Mem.tail _ (List.Mem.head _))))

end DLO
